import Mathlib

/-!
# Verification of the defguard network-membership and address-allocation core

A shallow embedding of the membership & address-allocation engine of the
defguard control plane (`crates/defguard_core`), together with theorems about
the embedded operations.

The embedding follows `src/db/models/device.rs` and
`src/handlers/wireguard.rs`.  Database tables are explicit lists of rows and
the transaction is explicit state passing: every mutating operation takes the
current database state and returns the state as it stands after the call,
alongside its result.  IPv4 addresses are natural numbers below `2^32`; a CIDR
block is its address plus a prefix length, with network/broadcast addresses
and the ascending iteration order derived exactly as the `ipnetwork` crate
does.  Helper routines of the repository that are not part of the provided
sources (`can_assign_ips`, `add_device_to_network`, `AsCsv`, `KEY_LENGTH`)
are modelled from the specification and marked as such.
-/

deriving instance DecidableEq for Except

namespace Defguard

/-- An IPv4 address, represented as a natural number below `2^32`. -/
abbrev Ip := Nat

/-- Model of `ipnetwork::IpNetwork` (IPv4 case): a CIDR block given by an
address and a prefix length. -/
structure IpNetwork where
  ip : Ip
  prefixLen : Nat
  deriving DecidableEq, Repr

/-- Number of addresses in the block (`2^(32 - prefixLen)`). -/
def IpNetwork.size (n : IpNetwork) : Nat := 2 ^ (32 - n.prefixLen)

/-- The block's network address (`ipnetwork::Ipv4Network::network`): the
address with all host bits cleared. -/
def IpNetwork.networkAddress (n : IpNetwork) : Ip :=
  n.ip / n.size * n.size

/-- The block's broadcast address (`ipnetwork::Ipv4Network::broadcast`): the
address with all host bits set. -/
def IpNetwork.broadcastAddress (n : IpNetwork) : Ip :=
  n.networkAddress + n.size - 1

/-- Block membership (`ipnetwork::Ipv4Network::contains`). -/
def IpNetwork.containsIp (n : IpNetwork) (x : Ip) : Bool :=
  n.networkAddress ≤ x && x ≤ n.broadcastAddress

/-- Ascending iteration over every address of the block, network and
broadcast addresses included, mirroring `for ip in address` on an
`ipnetwork::Ipv4Network`. -/
def IpNetwork.iterIps (n : IpNetwork) : List Ip :=
  List.range' n.networkAddress n.size

/-- Dotted-quad rendering of an IPv4 address. -/
def ipToString (x : Ip) : String :=
  s!"{x / 2 ^ 24 % 256}.{x / 2 ^ 16 % 256}.{x / 2 ^ 8 % 256}.{x % 256}"

/-- Rendering of a CIDR block, as `ipnetwork`'s `Display` does (`ip/prefix`). -/
def IpNetwork.render (n : IpNetwork) : String :=
  ipToString n.ip ++ "/" ++ toString n.prefixLen

/-- Modelled from the spec: the repository's `AsCsv` helper is not among the
provided sources; per §6 the address list is rendered as CSV in order. -/
def asCsvIps (ips : List Ip) : String :=
  String.intercalate "," (ips.map ipToString)

/-- Modelled from the spec: CSV rendering of a list of CIDR blocks
(the `AsCsv` impl for `Vec<IpNetwork>` is not among the provided sources). -/
def asCsvNetworks (ns : List IpNetwork) : String :=
  String.intercalate "," (ns.map IpNetwork.render)

/-- Model of `DeviceType` from `device.rs`: `User` or `Network` device. -/
inductive DeviceType where
  | user
  | network
  deriving DecidableEq, Repr

/-- The `Device<Id>` entity from `device.rs`. -/
structure Device where
  id : Nat
  name : String
  wireguard_pubkey : String
  user_id : Nat
  created : Nat
  device_type : DeviceType
  description : Option String
  configured : Bool
  deriving DecidableEq, Repr

/-- The `WireguardNetwork<Id>` entity (fields as selected throughout
`device.rs`). -/
structure WireguardNetwork where
  id : Nat
  name : String
  address : List IpNetwork
  port : Nat
  pubkey : String
  prvkey : String
  endpoint : String
  dns : Option String
  allowed_ips : List IpNetwork
  connected_at : Option Nat
  mfa_enabled : Bool
  keepalive_interval : Nat
  peer_disconnect_threshold : Nat
  acl_enabled : Bool
  acl_default_allow : Bool
  deriving DecidableEq, Repr

/-- The `WireguardNetworkDevice` row from `device.rs`: the link joining one
device to one network. -/
structure WireguardNetworkDevice where
  wireguard_network_id : Nat
  wireguard_ips : List Ip
  device_id : Nat
  preshared_key : Option String
  is_authorized : Bool
  authorized_at : Option Nat
  deriving DecidableEq, Repr

/-- Embedding of `WireguardNetworkDevice::new` (`device.rs` lines 286-298). -/
def WireguardNetworkDevice.new (network_id : Nat) (device_id : Nat)
    (wireguard_ips : List Ip) : WireguardNetworkDevice :=
  { wireguard_network_id := network_id
    wireguard_ips := wireguard_ips
    device_id := device_id
    preshared_key := none
    is_authorized := false
    authorized_at := none }

/-- Model of `sqlx::Error` as far as the claims need it. -/
inductive SqlxError where
  | databaseError
  deriving DecidableEq, Repr

/-- The database state seen by the embedded operations: the
`wireguard_network_device` table, plus (modelled from the spec, §7:
persistence-layer failures) the set of `(device_id, network_id)` pairs whose
insert statement fails with a database error. -/
structure DbState where
  links : List WireguardNetworkDevice
  failing : List (Nat × Nat)
  deriving DecidableEq, Repr

/-- Embedding of `WireguardNetworkDevice::find` (`device.rs` lines 369-391): the link for
a given `(device_id, network_id)` pair, if any. -/
def findLink (links : List WireguardNetworkDevice) (device_id network_id : Nat) :
    Option WireguardNetworkDevice :=
  links.find? fun l =>
    l.device_id = device_id && l.wireguard_network_id = network_id

/-- Embedding of `WireguardNetworkDevice::insert` (`device.rs` lines 308-330): an upsert
keyed on the `device_network` constraint; on conflict only `wireguard_ips`
and `is_authorized` are updated.  Fails with a database error exactly for
the pairs injected in `DbState.failing`. -/
def WireguardNetworkDevice.insert (l : WireguardNetworkDevice) (st : DbState) :
    Except SqlxError DbState :=
  if (l.device_id, l.wireguard_network_id) ∈ st.failing then
    .error .databaseError
  else if (findLink st.links l.device_id l.wireguard_network_id).isSome then
    .ok { st with links := st.links.map fun x =>
      if x.device_id = l.device_id && x.wireguard_network_id = l.wireguard_network_id then
        { x with wireguard_ips := l.wireguard_ips, is_authorized := l.is_authorized }
      else x }
  else
    .ok { st with links := st.links ++ [l] }

/-- The `ModelError` variants used by the allocator (`db/models/error.rs` is not
among the provided sources; the variants are those `device.rs` uses:
`CannotCreate` plus the `From<sqlx::Error>` conversion). -/
inductive ModelError where
  | CannotCreate
  | Sqlx (e : SqlxError)
  deriving DecidableEq, Repr

/-- Embedding of `DeviceError` from `device.rs` lines 512-522. -/
inductive DeviceError where
  | PubkeyConflict (device : Device) (network_name : String)
  | DatabaseError (e : SqlxError)
  | NetworkIpAssignmentError
  | Unexpected (msg : String)
  deriving DecidableEq, Repr

/-- Modelled from the spec: `WireguardNetwork::can_assign_ips` is not among
the provided sources.  Per §4.1 an address is assignable to a device when it
lies inside one of the network's blocks, is not that block's network or
broadcast address, and is not currently held by a *different* device in this
network. -/
def can_assign_ips (network : WireguardNetwork)
    (links : List WireguardNetworkDevice) (ips : List Ip)
    (device_id : Option Nat) : Bool :=
  ips.all fun ip =>
    (network.address.any fun b =>
      b.containsIp ip && ip ≠ b.networkAddress && ip ≠ b.broadcastAddress)
    && !(links.any fun l =>
      l.wireguard_network_id = network.id && ip ∈ l.wireguard_ips
        && some l.device_id ≠ device_id)

/-- The inner scan of `assign_next_network_ip` (`device.rs` lines 851-862):
the first address of the block, in ascending order, that passes
`can_assign_ips` and is not reserved. -/
def pickFirstIp (self : Device) (st : DbState) (network : WireguardNetwork)
    (reserved : List Ip) (address : IpNetwork) : Option Ip :=
  address.iterIps.find? fun ip =>
    can_assign_ips network st.links [ip] (some self.id) && !reserved.contains ip

/-- The current-address lookup of `assign_next_network_ip` (`device.rs`
lines 841-842): the first address of `current_ips` contained in the block. -/
def currentIpFor (current_ips : Option (List Ip)) (address : IpNetwork) :
    Option Ip :=
  current_ips.bind fun ips => ips.find? fun ip => address.containsIp ip

/-- The per-block loop of `assign_next_network_ip` (`device.rs` lines
835-879): for each block, keep a current address contained in it if there is
one, otherwise scan; error with `CannotCreate` when a block yields nothing. -/
def assignBlocksIps (self : Device) (st : DbState) (network : WireguardNetwork)
    (reserved : List Ip) (current_ips : Option (List Ip)) :
    List IpNetwork → Except ModelError (List Ip)
  | [] => .ok []
  | address :: rest =>
    match currentIpFor current_ips address with
    | some ip =>
      (assignBlocksIps self st network reserved current_ips rest).map
        fun ips => ip :: ips
    | none =>
      match pickFirstIp self st network reserved address with
      | some ip =>
        (assignBlocksIps self st network reserved current_ips rest).map
          fun ips => ip :: ips
      | none => .error .CannotCreate

/-- Embedding of `Device::assign_next_network_ip` (`device.rs` lines 820-891): assign the
next available address in each block of the network, then insert the link.
Returns the database state after the call together with the result; on error
the insert never ran, so the state is returned unchanged. -/
def Device.assign_next_network_ip (self : Device) (st : DbState)
    (network : WireguardNetwork) (reserved_ips : Option (List Ip))
    (current_ips : Option (List Ip)) :
    DbState × Except ModelError WireguardNetworkDevice :=
  match assignBlocksIps self st network (reserved_ips.getD []) current_ips
      network.address with
  | .error e => (st, .error e)
  | .ok ips =>
    let wnd := WireguardNetworkDevice.new network.id self.id ips
    match wnd.insert st with
    | .error e => (st, .error (.Sqlx e))
    | .ok st' => (st', .ok wnd)

/-- Modelled from the spec: `WireguardNetwork::add_device_to_network` is not
among the provided sources.  Per §4.2, `join_all_networks` attempts
`assign_next` for the device in the network; the visible call site passes no
reserved addresses and the device has no current addresses in the network. -/
def add_device_to_network (network : WireguardNetwork) (st : DbState)
    (device : Device) (reserved_ips : Option (List Ip)) :
    DbState × Except ModelError WireguardNetworkDevice :=
  device.assign_next_network_ip st network reserved_ips none

/-- Embedding of `DeviceNetworkInfo` from `device.rs` lines 142-149. -/
structure DeviceNetworkInfo where
  network_id : Nat
  device_wireguard_ips : List Ip
  preshared_key : Option String
  is_authorized : Bool
  deriving DecidableEq, Repr

/-- Embedding of `DeviceConfig` from `device.rs` lines 31-45. -/
structure DeviceConfig where
  network_id : Nat
  network_name : String
  config : String
  address : List Ip
  endpoint : String
  allowed_ips : List IpNetwork
  pubkey : String
  dns : Option String
  mfa_enabled : Bool
  keepalive_interval : Nat
  deriving DecidableEq, Repr

/-- Embedding of `Device::create_config` (`device.rs` lines 556-593): render the WireGuard
client configuration text.  The format string is translated literally, with
Rust's line-continuation backslashes eliding the newline and leading
whitespace. -/
def Device.create_config (network : WireguardNetwork)
    (wireguard_network_device : WireguardNetworkDevice) : String :=
  let dns := match network.dns with
    | some dns => if dns = "" then "" else "DNS = " ++ dns
    | none => ""
  let allowed_ips :=
    if network.allowed_ips = [] then ""
    else "AllowedIPs = " ++ asCsvNetworks network.allowed_ips ++ "\n"
  "[Interface]\nPrivateKey = YOUR_PRIVATE_KEY\nAddress = "
    ++ asCsvIps wireguard_network_device.wireguard_ips
    ++ "\n" ++ dns ++ "\n\n[Peer]\nPublicKey = " ++ network.pubkey
    ++ "\n" ++ allowed_ips ++ "Endpoint = " ++ network.endpoint ++ ":"
    ++ toString network.port ++ "\nPersistentKeepalive = 300"

/-- The `DeviceNetworkInfo` record built for a freshly assigned link
(`device.rs` lines 772-777). -/
def mkDeviceNetworkInfo (network : WireguardNetwork)
    (wnd : WireguardNetworkDevice) : DeviceNetworkInfo :=
  { network_id := network.id
    device_wireguard_ips := wnd.wireguard_ips
    preshared_key := wnd.preshared_key
    is_authorized := wnd.is_authorized }

/-- The `DeviceConfig` record built for a freshly assigned link
(`device.rs` lines 780-792). -/
def mkDeviceConfig (network : WireguardNetwork)
    (wnd : WireguardNetworkDevice) : DeviceConfig :=
  { network_id := network.id
    network_name := network.name
    config := Device.create_config network wnd
    endpoint := network.endpoint ++ ":" ++ toString network.port
    address := wnd.wireguard_ips
    allowed_ips := network.allowed_ips
    pubkey := network.pubkey
    dns := network.dns
    mfa_enabled := network.mfa_enabled
    keepalive_interval := network.keepalive_interval }

/-- The per-network loop of `Device::add_to_all_networks` (`device.rs` lines
745-794), with the accumulated membership descriptors and rendered configs
made explicit.  A pubkey conflict aborts the whole call; a network where the
device already holds a link is skipped; an error from
`add_device_to_network` is discarded by the `if let Ok` and the loop
continues. -/
def addToAllNetworksGo (self : Device) (st : DbState)
    (network_info : List DeviceNetworkInfo) (configs : List DeviceConfig) :
    List WireguardNetwork →
    DbState × Except DeviceError (List DeviceNetworkInfo × List DeviceConfig)
  | [] => (st, .ok (network_info, configs))
  | network :: rest =>
    if network.pubkey = self.wireguard_pubkey then
      (st, .error (.PubkeyConflict self network.name))
    else if (findLink st.links self.id network.id).isSome then
      addToAllNetworksGo self st network_info configs rest
    else
      match add_device_to_network network st self none with
      | (st', .ok wnd) =>
        addToAllNetworksGo self st'
          (network_info ++ [mkDeviceNetworkInfo network wnd])
          (configs ++ [mkDeviceConfig network wnd]) rest
      | (st', .error _) =>
        addToAllNetworksGo self st' network_info configs rest

/-- Embedding of `Device::add_to_all_networks` (`device.rs` lines 736-796): attempt to add
the device to every existing network.  `networks` stands for the result of
`WireguardNetwork::all`. -/
def Device.add_to_all_networks (self : Device) (st : DbState)
    (networks : List WireguardNetwork) :
    DbState × Except DeviceError (List DeviceNetworkInfo × List DeviceConfig) :=
  addToAllNetworksGo self st [] [] networks

/-- The per-network activity flag computed by `UserDevice::from_device`
(`device.rs` lines 203-219): the SQL expression
`COALESCE((NOW() - stats.latest_handshake) < threshold, FALSE)`, with the
threshold standing for the `WIREGUARD_MAX_HANDSHAKE` interval (whose value
lives outside the provided sources). -/
def is_active (latest_handshake : Option Int) (now : Int) (threshold : Int) :
    Bool :=
  match latest_handshake with
  | some h => now - h < threshold
  | none => false

/-- Modelled from the spec: `KEY_LENGTH` is declared outside the provided
sources; WireGuard keys are 32 bytes. -/
def KEY_LENGTH : Nat := 32

/-- The value of a standard-base64 symbol, or `none` for any other
character. -/
def base64Index (c : Char) : Option Nat :=
  if 'A' ≤ c ∧ c ≤ 'Z' then some (c.toNat - 65)
  else if 'a' ≤ c ∧ c ≤ 'z' then some (c.toNat - 97 + 26)
  else if '0' ≤ c ∧ c ≤ '9' then some (c.toNat - 48 + 52)
  else if c = '+' then some 62
  else if c = '/' then some 63
  else none

/-- Decoding loop for standard base64 with required canonical padding
(`base64::prelude::BASE64_STANDARD.decode`): four symbols at a time, `=`
padding only in the final quantum, non-zero trailing bits rejected. -/
def base64DecodeChars : List Char → Option (List Nat)
  | [] => some []
  | a :: b :: c :: d :: rest =>
    match base64Index a, base64Index b with
    | some x, some y =>
      if rest.isEmpty && c = '=' && d = '=' then
        if y % 16 = 0 then some [x * 4 + y / 16] else none
      else
        match base64Index c with
        | some z =>
          if rest.isEmpty && d = '=' then
            if z % 4 = 0 then
              some [x * 4 + y / 16, y % 16 * 16 + z / 4]
            else none
          else
            match base64Index d with
            | some w =>
              (base64DecodeChars rest).map fun tail =>
                (x * 4 + y / 16) :: (y % 16 * 16 + z / 4) :: (z % 4 * 64 + w) :: tail
            | none => none
        | none => none
    | _, _ => none
  | _ => none

/-- Model of `BASE64_STANDARD.decode` on a string: the byte list, or `none` when the
input is not valid padded standard base64. -/
def base64Decode (s : String) : Option (List Nat) :=
  base64DecodeChars s.toList

/-- Embedding of `Device::validate_pubkey` (`device.rs` lines 947-955). -/
def Device.validate_pubkey (pubkey : String) : Except String Unit :=
  match base64Decode pubkey with
  | some key =>
    if key.length = KEY_LENGTH then .ok ()
    else .error (pubkey ++ " is not a valid pubkey")
  | none => .error (pubkey ++ " is not a valid pubkey")

/-- Result of `std::sync::Mutex::lock`: the guard, or a `PoisonError` (which
still carries the guard) when a previous holder panicked. -/
inductive LockResult (α : Type) where
  | ok (guard : α)
  | poisonError (guard : α)
  deriving DecidableEq, Repr

/-- Model of `Mutex::lock` as a function of whether the mutex is poisoned. -/
def mutexLock (poisoned : Bool) (state : α) : LockResult α :=
  if poisoned then .poisonError state else .ok state

/-- Outcome of running code that may panic. -/
inductive PanicOutcome (α : Type) where
  | ok (a : α)
  | panicked (msg : String)
  deriving DecidableEq, Repr

/-- Model of `Result::expect` on a lock result: the guard, or a panic with the given
message. -/
def lockResultExpect (msg : String) : LockResult α → PanicOutcome α
  | .ok guard => .ok guard
  | .poisonError _ => .panicked msg

/-- Minimal stand-in for `grpc::GatewayMap` (defined outside the provided
sources): a per-network registry of gateway handles, here opaque pairs. -/
abbrev GatewayMap := List (Nat × Nat)

/-- The gateway-state lock acquisition shared verbatim by `list_networks`,
`network_details`, `gateway_status`, `all_gateways_status` and
`remove_gateway` (`handlers/wireguard.rs` lines 332-334, 377-379, 411-413,
431-433, 449-451): `gateway_state.lock().expect("Failed to acquire gateway
state lock")`. -/
def acquireGatewayStateLock (poisoned : Bool) (gateway_state : GatewayMap) :
    PanicOutcome GatewayMap :=
  lockResultExpect "Failed to acquire gateway state lock"
    (mutexLock poisoned gateway_state)

/-- Join a list of lines with newline separators; used to state the
field-for-field layout of the rendered configuration, following the spec's
description of the text as a sequence of lines. -/
def joinLines : List String → String
  | [] => ""
  | [line] => line
  | line :: rest => line ++ "\n" ++ joinLines rest

/-!
## Concrete fixtures

Small concrete devices, blocks, networks and database states used by the
witnesses and counterexamples below.
-/

/-- A concrete user device with public key `ka`. -/
def devA : Device :=
  { id := 1
    name := "dev1"
    wireguard_pubkey := "ka"
    user_id := 1
    created := 0
    device_type := .user
    description := none
    configured := true }

/-- The empty database. -/
def emptyDb : DbState := { links := [], failing := [] }

/-- Concrete `/30` block `0.0.0.8/30`: network address `8`, broadcast `11`,
assignable hosts `9` and `10`. -/
def blockA : IpNetwork := { ip := 8, prefixLen := 30 }

/-- Concrete `/31` block `0.0.0.16/31`: only addresses `16` (network) and
`17` (broadcast), so no assignable host at all. -/
def blockExh : IpNetwork := { ip := 16, prefixLen := 31 }

/-- Concrete `/30` block `0.0.0.24/30`: assignable hosts `25` and `26`. -/
def blockB : IpNetwork := { ip := 24, prefixLen := 30 }

/-- A concrete single-block network. -/
def netA : WireguardNetwork :=
  { id := 5
    name := "locA"
    address := [blockA]
    port := 50051
    pubkey := "gw-a"
    prvkey := "pv-a"
    endpoint := "vpn-a.example.com"
    dns := none
    allowed_ips := []
    connected_at := none
    mfa_enabled := false
    keepalive_interval := 25
    peer_disconnect_threshold := 180
    acl_enabled := false
    acl_default_allow := false }

/-- A second concrete single-block network. -/
def netB : WireguardNetwork :=
  { netA with id := 6, name := "locB", address := [blockB], pubkey := "gw-b" }

/-- A concrete network whose only block has no assignable host. -/
def netExh : WireguardNetwork :=
  { netA with id := 7, name := "locExh", address := [blockExh], pubkey := "gw-e" }

/-- A concrete network whose gateway public key collides with `devA`'s
device key. -/
def netConflict : WireguardNetwork :=
  { netA with id := 8, name := "locC", address := [blockB], pubkey := "ka" }

/-- A concrete two-block network whose second block has no assignable
host. -/
def netMB : WireguardNetwork :=
  { netA with id := 9, name := "locMB", pubkey := "gw-m", address := [blockA, blockExh] }

/-- A database where the insert for `(devA, netA)` fails with a database
error. -/
def dbFailA : DbState := { links := [], failing := [(1, 5)] }

/-- An existing link of `devA` in `netA`, with a preshared key and
authorization data. -/
def linkA5 : WireguardNetworkDevice :=
  { wireguard_network_id := 5
    wireguard_ips := [9]
    device_id := 1
    preshared_key := some "psk"
    is_authorized := true
    authorized_at := some 42 }

/-- A database in which `devA` is already linked to `netA`. -/
def dbLinked : DbState := { links := [linkA5], failing := [] }

/-!
## Helper lemmas
-/

/-- When some block has neither a current address inside it nor a pickable
address, the per-block loop fails with `CannotCreate`. -/
theorem assignBlocksIps_exhausted (self : Device) (st : DbState)
    (network : WireguardNetwork) (reserved : List Ip)
    (current : Option (List Ip)) (blocks : List IpNetwork)
    (h : ∃ b ∈ blocks, currentIpFor current b = none
      ∧ pickFirstIp self st network reserved b = none) :
    assignBlocksIps self st network reserved current blocks
      = .error ModelError.CannotCreate := by
  induction blocks with
  | nil => simp at h
  | cons b rest ih =>
    rcases h with ⟨b', hb', hcur, hpick⟩
    rcases List.mem_cons.mp hb' with heq | hmem
    · subst heq
      simp [assignBlocksIps, hcur, hpick]
    · have hrest := ih ⟨b', hmem, hcur, hpick⟩
      cases hc : currentIpFor current b with
      | some ip => simp [assignBlocksIps, hc, hrest, Except.map]
      | none =>
        cases hp : pickFirstIp self st network reserved b with
        | some ip => simp [assignBlocksIps, hc, hp, hrest, Except.map]
        | none => simp [assignBlocksIps, hc, hp]

/-- An insert whose `(device, network)` pair is not in the failing set
succeeds. -/
theorem insert_ok_of_not_failing (l : WireguardNetworkDevice) (st : DbState)
    (h : (l.device_id, l.wireguard_network_id) ∉ st.failing) :
    ∃ st', l.insert st = .ok st' := by
  unfold WireguardNetworkDevice.insert
  simp only [h, if_false]
  split
  · exact ⟨_, rfl⟩
  · exact ⟨_, rfl⟩

/-- When every block contains some current address, the per-block loop keeps
the first current address of each block, with no validity check at all. -/
theorem assignBlocksIps_keeps_current (self : Device) (st : DbState)
    (network : WireguardNetwork) (reserved : List Ip) (cur : List Ip)
    (blocks : List IpNetwork)
    (hcov : ∀ b ∈ blocks, (cur.find? fun ip => b.containsIp ip).isSome) :
    assignBlocksIps self st network reserved (some cur) blocks
      = .ok (blocks.map fun b => (cur.find? fun ip => b.containsIp ip).getD 0) := by
  induction blocks with
  | nil => simp [assignBlocksIps]
  | cons b rest ih =>
    have hb := hcov b (List.mem_cons_self b rest)
    obtain ⟨ip, hip⟩ := Option.isSome_iff_exists.mp hb
    have hrest := ih fun b' hb' => hcov b' (List.mem_cons_of_mem b hb')
    simp [assignBlocksIps, currentIpFor, hip, hrest, Except.map]

/-!
## C1 — keeping the current address
-/

/-- C1 counterexample: on the concrete network `netA` (block `0.0.0.8/30`)
with current address `8`, the address lies inside the block but fails the
validity check (it is the block's network address), and the ascending scan
would instead pick `9`; yet `assign_next_network_ip` keeps `8` unchanged,
contradicting the claim that an invalid current address is replaced via the
scan. -/
theorem assign_next_keeps_invalid_current_counterexample :
    blockA.containsIp 8 = true
    ∧ can_assign_ips netA emptyDb.links [8] (some devA.id) = false
    ∧ pickFirstIp devA emptyDb netA [] blockA = some 9
    ∧ (Device.assign_next_network_ip devA emptyDb netA none (some [8])).2
        = .ok (WireguardNetworkDevice.new netA.id devA.id [8]) := by
  decide

/-- C1 (amended): for every device, network and address block,
`assign_next_network_ip` keeps the device's current address for that block
whenever the address merely lies inside the block — the validity check is
not re-run on it.  Consequently, when every block contains some current
address (in particular, when a currently valid address set is passed as
`current`), allocation returns exactly the first current address of each
block, identically — stability holds, but also for invalid current
addresses. -/
theorem assign_next_network_ip_keeps_current (self : Device) (st : DbState)
    (network : WireguardNetwork) (reserved_ips : Option (List Ip))
    (cur : List Ip)
    (hcov : ∀ b ∈ network.address, (cur.find? fun ip => b.containsIp ip).isSome)
    (hfail : (self.id, network.id) ∉ st.failing) :
    (Device.assign_next_network_ip self st network reserved_ips (some cur)).2
      = .ok (WireguardNetworkDevice.new network.id self.id
          (network.address.map fun b =>
            (cur.find? fun ip => b.containsIp ip).getD 0)) := by
  have hmem : ((WireguardNetworkDevice.new network.id self.id
        (network.address.map fun b =>
          (cur.find? fun ip => b.containsIp ip).getD 0)).device_id,
      (WireguardNetworkDevice.new network.id self.id
        (network.address.map fun b =>
          (cur.find? fun ip => b.containsIp ip).getD 0)).wireguard_network_id)
        ∉ st.failing := by
    simpa [WireguardNetworkDevice.new] using hfail
  obtain ⟨st', hst'⟩ := insert_ok_of_not_failing _ st hmem
  unfold Device.assign_next_network_ip
  rw [assignBlocksIps_keeps_current self st network (reserved_ips.getD [])
    cur network.address hcov]
  simp only [hst']

/-- Witness for the amended C1 theorem at a concrete input: current address
`9` in `netA` is kept identically. -/
theorem assign_next_network_ip_keeps_current_witness :
    ((∀ b ∈ netA.address, (([9] : List Ip).find? fun ip => b.containsIp ip).isSome)
      ∧ (devA.id, netA.id) ∉ emptyDb.failing)
    ∧ (Device.assign_next_network_ip devA emptyDb netA none (some [9])).2
        = .ok (WireguardNetworkDevice.new netA.id devA.id
            (netA.address.map fun b =>
              (([9] : List Ip).find? fun ip => b.containsIp ip).getD 0)) :=
  ⟨⟨by decide, by decide⟩,
    assign_next_network_ip_keeps_current devA emptyDb netA none [9]
      (by decide) (by decide)⟩

/-!
## Helper lemmas about the membership loop
-/

/-- The membership loop splits over list append. -/
theorem addToAllNetworksGo_append (self : Device) (xs ys : List WireguardNetwork) :
    ∀ (st : DbState) (i : List DeviceNetworkInfo) (c : List DeviceConfig),
      addToAllNetworksGo self st i c (xs ++ ys)
        = match addToAllNetworksGo self st i c xs with
          | (st', .ok (i', c')) => addToAllNetworksGo self st' i' c' ys
          | (st', .error e) => (st', .error e) := by
  induction xs with
  | nil => intro st i c; simp [addToAllNetworksGo]
  | cons x xs ih =>
    intro st i c
    by_cases hpk : x.pubkey = self.wireguard_pubkey
    · simp [addToAllNetworksGo, hpk]
    · by_cases hl : (findLink st.links self.id x.id).isSome = true
      · simp only [List.cons_append, addToAllNetworksGo, hpk, hl]
        simp only [if_true, if_false, ite_true, ite_false]
        exact ih st i c
      · cases hadd : add_device_to_network x st self none with
        | mk stE r =>
          cases r with
          | ok wnd =>
            simp only [List.cons_append, addToAllNetworksGo, hpk, hl, hadd]
            simp only [if_true, if_false, ite_true, ite_false]
            exact ih stE _ _
          | error e =>
            simp only [List.cons_append, addToAllNetworksGo, hpk, hl, hadd]
            simp only [if_true, if_false, ite_true, ite_false]
            exact ih stE i c

/-- A run of the membership loop over conflict-free networks always ends in
an `ok` result. -/
theorem addToAllNetworksGo_ok (self : Device) (xs : List WireguardNetwork) :
    ∀ (st : DbState) (i : List DeviceNetworkInfo) (c : List DeviceConfig),
      (∀ m ∈ xs, m.pubkey ≠ self.wireguard_pubkey) →
      ∃ st' i' c', addToAllNetworksGo self st i c xs = (st', .ok (i', c')) := by
  induction xs with
  | nil => intro st i c _; exact ⟨st, i, c, rfl⟩
  | cons x xs ih =>
    intro st i c h
    have hx := h x (List.mem_cons_self x xs)
    have hxs := fun m hm => h m (List.mem_cons_of_mem x hm)
    by_cases hl : (findLink st.links self.id x.id).isSome = true
    · obtain ⟨st', i', c', heq⟩ := ih st i c hxs
      exact ⟨st', i', c', by simp [addToAllNetworksGo, hx, hl, heq]⟩
    · cases hadd : add_device_to_network x st self none with
      | mk stE r =>
        cases r with
        | ok wnd =>
          obtain ⟨st', i', c', heq⟩ := ih stE
            (i ++ [mkDeviceNetworkInfo x wnd]) (c ++ [mkDeviceConfig x wnd]) hxs
          exact ⟨st', i', c', by simp [addToAllNetworksGo, hx, hl, hadd, heq]⟩
        | error e =>
          obtain ⟨st', i', c', heq⟩ := ih stE i c hxs
          exact ⟨st', i', c', by simp [addToAllNetworksGo, hx, hl, hadd, heq]⟩

/-- When `assign_next_network_ip` fails, the database state it returns is
the input state: the single insert sits after every possible failure. -/
theorem assign_next_network_ip_error_state (self : Device) (st : DbState)
    (network : WireguardNetwork) (r c : Option (List Ip)) (st' : DbState)
    (e : ModelError)
    (h : Device.assign_next_network_ip self st network r c = (st', .error e)) :
    st' = st := by
  unfold Device.assign_next_network_ip at h
  split at h
  · exact (congrArg Prod.fst h).symm
  · dsimp only at h
    split at h
    · exact (congrArg Prod.fst h).symm
    · simp at h

/-- State preservation on failure, for the spec-modelled wrapper. -/
theorem add_device_to_network_error_state (network : WireguardNetwork)
    (st : DbState) (device : Device) (r : Option (List Ip)) (st' : DbState)
    (e : ModelError)
    (h : add_device_to_network network st device r = (st', .error e)) :
    st' = st := by
  unfold add_device_to_network at h
  exact assign_next_network_ip_error_state device st network r none st' e h

/-- When `add_device_to_network` succeeds for a device with no existing link
in the network, the new link row is appended to the table and carries the
device's and network's ids. -/
theorem add_device_to_network_ok_state (network : WireguardNetwork)
    (st : DbState) (device : Device) (r : Option (List Ip)) (st' : DbState)
    (wnd : WireguardNetworkDevice)
    (hnl : findLink st.links device.id network.id = none)
    (h : add_device_to_network network st device r = (st', .ok wnd)) :
    st'.links = st.links ++ [wnd]
      ∧ wnd.device_id = device.id ∧ wnd.wireguard_network_id = network.id := by
  unfold add_device_to_network Device.assign_next_network_ip at h
  split at h
  · simp at h
  · dsimp only at h
    split at h
    · simp at h
    · rename_i st2 hins
      have h1 := congrArg Prod.fst h
      have h2 := congrArg Prod.snd h
      simp only at h1 h2
      rw [Except.ok.injEq] at h2
      subst h1
      subst h2
      unfold WireguardNetworkDevice.insert at hins
      split at hins
      · simp at hins
      · split at hins
        · rename_i hcond
          rw [show (WireguardNetworkDevice.new network.id device.id _).device_id
              = device.id from rfl,
            show (WireguardNetworkDevice.new network.id device.id _).wireguard_network_id
              = network.id from rfl, hnl] at hcond
          simp at hcond
        · rw [Except.ok.injEq] at hins
          subst hins
          exact ⟨rfl, rfl, rfl⟩

/-- A network whose per-network add fails (for any reason) is skipped by the
membership loop: the loop's behaviour on `n :: post` is the behaviour on
`post` alone. -/
theorem addToAllNetworksGo_skip_failed (self : Device) (st : DbState)
    (i : List DeviceNetworkInfo) (c : List DeviceConfig)
    (n : WireguardNetwork) (post : List WireguardNetwork) (e : ModelError)
    (hn : n.pubkey ≠ self.wireguard_pubkey)
    (hnl : findLink st.links self.id n.id = none)
    (hfail : (add_device_to_network n st self none).2 = .error e) :
    addToAllNetworksGo self st i c (n :: post)
      = addToAllNetworksGo self st i c post := by
  have hl : ¬((findLink st.links self.id n.id).isSome = true) := by simp [hnl]
  cases hadd : add_device_to_network n st self none with
  | mk stE r =>
    rw [hadd] at hfail
    simp only at hfail
    subst hfail
    have hstE : stE = st := add_device_to_network_error_state n st self none stE e hadd
    subst hstE
    simp [addToAllNetworksGo, hn, hl, hadd]

/-- Splicing a failing network into a run of `add_to_all_networks` does not
change the outcome: the run on `pre ++ n :: post` equals the run on
`pre ++ post`. -/
theorem add_to_all_networks_skip_lemma (self : Device) (st st1 : DbState)
    (i1 : List DeviceNetworkInfo) (c1 : List DeviceConfig)
    (pre post : List WireguardNetwork) (n : WireguardNetwork) (e : ModelError)
    (hpre : Device.add_to_all_networks self st pre = (st1, .ok (i1, c1)))
    (hn : n.pubkey ≠ self.wireguard_pubkey)
    (hnl : findLink st1.links self.id n.id = none)
    (hfail : (add_device_to_network n st1 self none).2 = .error e) :
    Device.add_to_all_networks self st (pre ++ n :: post)
      = Device.add_to_all_networks self st (pre ++ post) := by
  unfold Device.add_to_all_networks at hpre ⊢
  rw [addToAllNetworksGo_append self pre (n :: post) st [] [],
    addToAllNetworksGo_append self pre post st [] [], hpre]
  exact addToAllNetworksGo_skip_failed self st1 i1 c1 n post e hn hnl hfail

/-!
## C2 — all-or-nothing allocation
-/

/-- C2 (confirmed): `assign_next_network_ip` is all-or-nothing across
blocks: whenever any single block of the network yields no assignable
address (no current address inside it, and every scanned candidate
excluded), the whole call fails with `ModelError.CannotCreate` and the
database state is returned unchanged — no link record is written for the
`(device, network)` pair, and addresses picked for earlier blocks are not
committed. -/
theorem assign_next_network_ip_all_or_nothing (self : Device) (st : DbState)
    (network : WireguardNetwork) (reserved_ips : Option (List Ip))
    (current_ips : Option (List Ip))
    (h : ∃ b ∈ network.address, currentIpFor current_ips b = none
      ∧ pickFirstIp self st network (reserved_ips.getD []) b = none) :
    Device.assign_next_network_ip self st network reserved_ips current_ips
      = (st, .error ModelError.CannotCreate) := by
  unfold Device.assign_next_network_ip
  rw [assignBlocksIps_exhausted self st network (reserved_ips.getD [])
    current_ips network.address h]

/-- Witness for C2 at a concrete input: `netMB` has two blocks; the first
yields `9`, the second (`0.0.0.16/31`) has no assignable address, so the
whole call fails with `CannotCreate` and the empty database stays empty. -/
theorem assign_next_network_ip_all_or_nothing_witness :
    (∃ b ∈ netMB.address, currentIpFor none b = none
      ∧ pickFirstIp devA emptyDb netMB ((none : Option (List Ip)).getD []) b = none)
    ∧ Device.assign_next_network_ip devA emptyDb netMB none none
        = (emptyDb, .error ModelError.CannotCreate) :=
  ⟨by decide,
    assign_next_network_ip_all_or_nothing devA emptyDb netMB none none (by decide)⟩

/-!
## C3 — pubkey conflict aborts the whole bulk join
-/

/-- C3 (confirmed): when the device's public key equals the gateway key of
some network in the list, `add_to_all_networks` aborts at the first such
network: the call returns the `PubkeyConflict` error, no result set is
returned, and the networks after the conflicting one are not processed — the
final database state is exactly the state reached after the networks before
the conflict. -/
theorem add_to_all_networks_pubkey_conflict_aborts (self : Device)
    (st : DbState) (pre post : List WireguardNetwork) (n : WireguardNetwork)
    (hpre : ∀ m ∈ pre, m.pubkey ≠ self.wireguard_pubkey)
    (hn : n.pubkey = self.wireguard_pubkey) :
    Device.add_to_all_networks self st (pre ++ n :: post)
      = ((Device.add_to_all_networks self st pre).1,
          .error (DeviceError.PubkeyConflict self n.name)) := by
  obtain ⟨st', i', c', heq⟩ := addToAllNetworksGo_ok self pre st [] [] hpre
  unfold Device.add_to_all_networks
  rw [addToAllNetworksGo_append self pre (n :: post) st [] [], heq]
  simp [addToAllNetworksGo, hn]

/-- Witness for C3 at a concrete input: `netConflict`'s gateway key equals
`devA`'s key, so joining `[netB, netConflict, netA]` aborts with
`PubkeyConflict` and `netA` is never processed. -/
theorem add_to_all_networks_pubkey_conflict_aborts_witness :
    ((∀ m ∈ [netB], m.pubkey ≠ devA.wireguard_pubkey)
      ∧ netConflict.pubkey = devA.wireguard_pubkey)
    ∧ Device.add_to_all_networks devA emptyDb ([netB] ++ netConflict :: [netA])
        = ((Device.add_to_all_networks devA emptyDb [netB]).1,
            .error (DeviceError.PubkeyConflict devA netConflict.name)) :=
  ⟨⟨by decide, by decide⟩,
    add_to_all_networks_pubkey_conflict_aborts devA emptyDb [netB] [netA]
      netConflict (by decide) (by decide)⟩

/-!
## C4 — allocation failure skips only that network
-/

/-- C4 (confirmed): an allocation failure for one network inside
`add_to_all_networks` skips only that network: the run on
`pre ++ n :: post` — where adding the device to `n` fails — is identical to
the run on `pre ++ post`, so every remaining network is still attempted and
the successful memberships and configs of the other networks are still
returned. -/
theorem add_to_all_networks_allocation_failure_skips (self : Device)
    (st st1 : DbState) (i1 : List DeviceNetworkInfo) (c1 : List DeviceConfig)
    (pre post : List WireguardNetwork) (n : WireguardNetwork) (e : ModelError)
    (hpre : Device.add_to_all_networks self st pre = (st1, .ok (i1, c1)))
    (hn : n.pubkey ≠ self.wireguard_pubkey)
    (hnl : findLink st1.links self.id n.id = none)
    (hfail : (add_device_to_network n st1 self none).2 = .error e) :
    Device.add_to_all_networks self st (pre ++ n :: post)
      = Device.add_to_all_networks self st (pre ++ post) :=
  add_to_all_networks_skip_lemma self st st1 i1 c1 pre post n e hpre hn hnl
    hfail

/-- Witness for C4 at a concrete input: `netExh`'s pool is exhausted, the
device is still added to the later network `netB` (link `25` appears), and
the run equals the run without `netExh`. -/
theorem add_to_all_networks_allocation_failure_skips_witness :
    (Device.add_to_all_networks devA emptyDb [] = (emptyDb, .ok ([], []))
      ∧ netExh.pubkey ≠ devA.wireguard_pubkey
      ∧ findLink emptyDb.links devA.id netExh.id = none
      ∧ (add_device_to_network netExh emptyDb devA none).2
          = .error ModelError.CannotCreate)
    ∧ Device.add_to_all_networks devA emptyDb ([] ++ netExh :: [netB])
        = Device.add_to_all_networks devA emptyDb ([] ++ [netB])
    ∧ ((Device.add_to_all_networks devA emptyDb [netExh, netB]).1).links
        = [WireguardNetworkDevice.new netB.id devA.id [25]] :=
  ⟨⟨by decide, by decide, by decide, by decide⟩,
    add_to_all_networks_allocation_failure_skips devA emptyDb emptyDb [] []
      [] [netB] netExh ModelError.CannotCreate (by decide) (by decide)
      (by decide) (by decide),
    by decide⟩

/-!
## C5 — idempotent re-join per network
-/

/-- Through a conflict-free run of the membership loop, an existing link of
the device is preserved unchanged, and every produced descriptor belongs to
a different network. -/
theorem addToAllNetworksGo_preserves_link (self : Device) (nid : Nat)
    (l : WireguardNetworkDevice) (xs : List WireguardNetwork) :
    ∀ (st : DbState) (i : List DeviceNetworkInfo) (c : List DeviceConfig),
      (∀ m ∈ xs, m.pubkey ≠ self.wireguard_pubkey) →
      findLink st.links self.id nid = some l →
      ∃ st' i2 c2,
        addToAllNetworksGo self st i c xs = (st', .ok (i ++ i2, c ++ c2))
        ∧ findLink st'.links self.id nid = some l
        ∧ (∀ x ∈ i2, x.network_id ≠ nid)
        ∧ (∀ x ∈ c2, x.network_id ≠ nid) := by
  induction xs with
  | nil =>
    intro st i c _ hlink
    exact ⟨st, [], [], by simp [addToAllNetworksGo], hlink, by simp, by simp⟩
  | cons x xs ih =>
    intro st i c h hlink
    have hx := h x (List.mem_cons_self x xs)
    have hxs := fun m hm => h m (List.mem_cons_of_mem x hm)
    by_cases hl : (findLink st.links self.id x.id).isSome = true
    · obtain ⟨st', i2, c2, heq, hfind, hi, hc⟩ := ih st i c hxs hlink
      exact ⟨st', i2, c2, by simp [addToAllNetworksGo, hx, hl, heq], hfind,
        hi, hc⟩
    · have hnone : findLink st.links self.id x.id = none := by
        simpa using hl
      have hxid : x.id ≠ nid := by
        intro hcontra
        rw [hcontra, hlink] at hnone
        exact Option.noConfusion hnone
      cases hadd : add_device_to_network x st self none with
      | mk stE r =>
        cases r with
        | ok wnd =>
          obtain ⟨hlinks, hdev, hnet⟩ :=
            add_device_to_network_ok_state x st self none stE wnd hnone hadd
          have hlink' : findLink stE.links self.id nid = some l := by
            rw [hlinks]
            unfold findLink at hlink ⊢
            rw [List.find?_append, hlink]
            rfl
          obtain ⟨st', i2, c2, heq, hfind, hi, hc⟩ := ih stE
            (i ++ [mkDeviceNetworkInfo x wnd]) (c ++ [mkDeviceConfig x wnd])
            hxs hlink'
          refine ⟨st', mkDeviceNetworkInfo x wnd :: i2,
            mkDeviceConfig x wnd :: c2, ?_, hfind, ?_, ?_⟩
          · rw [show i ++ mkDeviceNetworkInfo x wnd :: i2
                = (i ++ [mkDeviceNetworkInfo x wnd]) ++ i2 by simp,
              show c ++ mkDeviceConfig x wnd :: c2
                = (c ++ [mkDeviceConfig x wnd]) ++ c2 by simp]
            simp [addToAllNetworksGo, hx, hl, hadd, heq]
          · intro y hy
            rcases List.mem_cons.mp hy with rfl | hmem
            · simpa [mkDeviceNetworkInfo] using hxid
            · exact hi y hmem
          · intro y hy
            rcases List.mem_cons.mp hy with rfl | hmem
            · simpa [mkDeviceConfig] using hxid
            · exact hc y hmem
        | error e =>
          have hstE : stE = st :=
            add_device_to_network_error_state x st self none stE e hadd
          rw [hstE] at hadd
          obtain ⟨st', i2, c2, heq, hfind, hi, hc⟩ := ih st i c hxs hlink
          exact ⟨st', i2, c2, by simp [addToAllNetworksGo, hx, hl, hadd, heq],
            hfind, hi, hc⟩

/-- C5 (confirmed): `add_to_all_networks` is idempotent per network — for a
network id in which the device already holds a link, the run (over
conflict-free networks) succeeds, leaves that link (addresses, preshared
key, authorization fields) byte-for-byte unchanged, allocates nothing for
that network, and returns no membership descriptor or config carrying that
network id. -/
theorem add_to_all_networks_idempotent_per_network (self : Device)
    (st : DbState) (networks : List WireguardNetwork) (nid : Nat)
    (l : WireguardNetworkDevice)
    (hconf : ∀ m ∈ networks, m.pubkey ≠ self.wireguard_pubkey)
    (hlink : findLink st.links self.id nid = some l) :
    ∃ st' infos configs,
      Device.add_to_all_networks self st networks = (st', .ok (infos, configs))
      ∧ findLink st'.links self.id nid = some l
      ∧ (∀ x ∈ infos, x.network_id ≠ nid)
      ∧ (∀ x ∈ configs, x.network_id ≠ nid) := by
  obtain ⟨st', i2, c2, heq, hfind, hi, hc⟩ :=
    addToAllNetworksGo_preserves_link self nid l networks st [] [] hconf hlink
  exact ⟨st', i2, c2, by simpa using heq, hfind, hi, hc⟩

/-- Witness for C5 at a concrete input: `devA` already holds `linkA5` (with
preshared key and authorization data) in `netA`; joining `[netA, netB]`
keeps that link unchanged and produces no descriptor for network `5`. -/
theorem add_to_all_networks_idempotent_per_network_witness :
    ((∀ m ∈ [netA, netB], m.pubkey ≠ devA.wireguard_pubkey)
      ∧ findLink dbLinked.links devA.id 5 = some linkA5)
    ∧ ∃ st' infos configs,
        Device.add_to_all_networks devA dbLinked [netA, netB]
          = (st', .ok (infos, configs))
        ∧ findLink st'.links devA.id 5 = some linkA5
        ∧ (∀ x ∈ infos, x.network_id ≠ 5)
        ∧ (∀ x ∈ configs, x.network_id ≠ 5) :=
  ⟨⟨by decide, by decide⟩,
    add_to_all_networks_idempotent_per_network devA dbLinked [netA, netB] 5
      linkA5 (by decide) (by decide)⟩

/-!
## C9 — database errors in the bulk loop
-/

/-- C9 counterexample at a concrete input: with the insert for
`(devA, netA)` failing with a database error, `add_device_to_network`
returns that database error, yet `add_to_all_networks` still returns `ok`
with the network silently missing — the database error is discarded, not
propagated, exactly as if the network had merely been skipped. -/
theorem add_to_all_networks_swallows_db_error_counterexample :
    (add_device_to_network netA dbFailA devA none).2
        = .error (ModelError.Sqlx SqlxError.databaseError)
    ∧ Device.add_to_all_networks devA dbFailA [netA]
        = (dbFailA, .ok ([], [])) := by
  decide

/-- C9 (amended): inside `add_to_all_networks`, a database error returned by
`add_device_to_network` for one network is silently discarded by the
`if let Ok` pattern: the run equals the run with that network absent, and
the whole call still returns `ok` — a database failure is treated exactly
like a benign per-network allocation skip, neither propagated to the caller
nor distinguishable in the result. -/
theorem add_to_all_networks_swallows_db_error (self : Device)
    (st st1 : DbState) (i1 : List DeviceNetworkInfo) (c1 : List DeviceConfig)
    (pre post : List WireguardNetwork) (n : WireguardNetwork) (e : SqlxError)
    (hpre : Device.add_to_all_networks self st pre = (st1, .ok (i1, c1)))
    (hn : n.pubkey ≠ self.wireguard_pubkey)
    (hpost : ∀ m ∈ post, m.pubkey ≠ self.wireguard_pubkey)
    (hnl : findLink st1.links self.id n.id = none)
    (hfail : (add_device_to_network n st1 self none).2
      = .error (ModelError.Sqlx e)) :
    Device.add_to_all_networks self st (pre ++ n :: post)
      = Device.add_to_all_networks self st (pre ++ post)
    ∧ ∃ st2 i2 c2,
        Device.add_to_all_networks self st (pre ++ n :: post)
          = (st2, .ok (i2, c2)) := by
  have hskip := add_to_all_networks_skip_lemma self st st1 i1 c1 pre post n
    (ModelError.Sqlx e) hpre hn hnl hfail
  refine ⟨hskip, ?_⟩
  obtain ⟨st2, i2, c2, heq⟩ := addToAllNetworksGo_ok self post st1 i1 c1 hpost
  refine ⟨st2, i2, c2, ?_⟩
  rw [hskip]
  unfold Device.add_to_all_networks at hpre ⊢
  rw [addToAllNetworksGo_append self pre post st [] [], hpre]
  exact heq

/-- Witness for the amended C9 theorem at a concrete input: the injected
database failure for `(devA, netA)` makes the run on `[netA, netB]` equal
the run on `[netB]`, and the call still succeeds. -/
theorem add_to_all_networks_swallows_db_error_witness :
    (Device.add_to_all_networks devA dbFailA [] = (dbFailA, .ok ([], []))
      ∧ netA.pubkey ≠ devA.wireguard_pubkey
      ∧ (∀ m ∈ [netB], m.pubkey ≠ devA.wireguard_pubkey)
      ∧ findLink dbFailA.links devA.id netA.id = none
      ∧ (add_device_to_network netA dbFailA devA none).2
          = .error (ModelError.Sqlx SqlxError.databaseError))
    ∧ (Device.add_to_all_networks devA dbFailA ([] ++ netA :: [netB])
        = Device.add_to_all_networks devA dbFailA ([] ++ [netB])
      ∧ ∃ st2 i2 c2,
          Device.add_to_all_networks devA dbFailA ([] ++ netA :: [netB])
            = (st2, .ok (i2, c2))) :=
  ⟨⟨by decide, by decide, by decide, by decide, by decide⟩,
    add_to_all_networks_swallows_db_error devA dbFailA dbFailA [] [] [] [netB]
      netA SqlxError.databaseError (by decide) (by decide) (by decide)
      (by decide) (by decide)⟩

/-!
## C6 — device activity derivation
-/

/-- C6 (confirmed): a device is reported active iff
`now - last_handshake < threshold` (strict upper bound): when
`now - last_handshake ≥ threshold` the device is inactive, and a device with
no recorded handshake is inactive. -/
theorem is_active_characterization :
    (∀ (h now threshold : Int),
      is_active (some h) now threshold = true ↔ now - h < threshold)
    ∧ (∀ (h now threshold : Int),
      threshold ≤ now - h → is_active (some h) now threshold = false)
    ∧ (∀ (now threshold : Int), is_active none now threshold = false) := by
  refine ⟨fun h now t => ?_, fun h now t hge => ?_, fun now t => rfl⟩
  · simp [is_active]
  · simp only [is_active, decide_eq_false_iff_not, not_lt]
    exact hge

/-- Witness for C6 at concrete values: with threshold `5` and handshake age
exactly `5`, the device is inactive (boundary goes to inactive). -/
theorem is_active_characterization_witness :
    ((5 : Int) ≤ (10 : Int) - (5 : Int))
    ∧ is_active (some 5) 10 5 = false :=
  ⟨by decide, is_active_characterization.2.1 5 10 5 (by decide)⟩

/-!
## C7 — field-for-field stability of the rendered configuration
-/

/-- C7 (confirmed): the rendered per-device configuration is field-for-field
stable: it is exactly the newline-join of the line list below, in which the
Address line lists the link's assigned addresses as CSV in order; the DNS
slot renders as an empty line (no DNS directive at all) when the network's
DNS is absent or empty; the AllowedIPs line is omitted entirely (not even a
blank line) when the allowed-routes list is empty; the Endpoint line is
exactly `host:port` from the network's endpoint and port; and the keepalive
directive is the fixed constant `PersistentKeepalive = 300`. -/
theorem create_config_field_for_field (network : WireguardNetwork)
    (wnd : WireguardNetworkDevice) :
    Device.create_config network wnd = joinLines
      (["[Interface]", "PrivateKey = YOUR_PRIVATE_KEY",
        "Address = " ++ asCsvIps wnd.wireguard_ips,
        (match network.dns with
          | some dns => if dns = "" then "" else "DNS = " ++ dns
          | none => ""),
        "", "[Peer]", "PublicKey = " ++ network.pubkey]
        ++ (if network.allowed_ips = [] then []
            else ["AllowedIPs = " ++ asCsvNetworks network.allowed_ips])
        ++ ["Endpoint = " ++ network.endpoint ++ ":" ++ toString network.port,
            "PersistentKeepalive = 300"]) := by
  rcases network with
    ⟨id, name, address, port, pubkey, prvkey, endpoint, dns, allowed_ips, rest⟩
  cases dns <;> rcases allowed_ips with _ | ⟨a, as⟩ <;>
    (apply String.ext
     simp [Device.create_config, joinLines, String.data_append])

/-!
## C8 — gateway-state lock acquisition
-/

/-- C8 counterexample at a concrete input: with the mutex poisoned by a
prior panic, the shared lock acquisition used by `list_networks`,
`network_details`, `gateway_status`, `all_gateways_status` and
`remove_gateway` panics instead of recovering. -/
theorem acquire_gateway_state_lock_panics_counterexample :
    acquireGatewayStateLock true []
      = .panicked ("Failed to acquire gateway state lock") := by
  decide

/-- C8 (amended): acquiring the shared gateway-state lock panics — aborting
the task fatally with the message of the `expect` call — exactly when the
mutex is poisoned; there is no recovery path, and only an unpoisoned mutex
yields the guarded state. -/
theorem acquire_gateway_state_lock_spec (poisoned : Bool) (gm : GatewayMap) :
    acquireGatewayStateLock poisoned gm
      = if poisoned then .panicked ("Failed to acquire gateway state lock")
        else .ok gm := by
  cases poisoned <;> rfl

/-!
## C10 — public-key validation
-/

/-- C10 (confirmed): `validate_pubkey` accepts exactly the strings that are
valid standard base64 and decode to `KEY_LENGTH` (32) bytes; every other
string is rejected with an error message naming the rejected key.  The
embedded function is total, so it never panics; the two concrete vectors are
the repository's own test vectors. -/
theorem validate_pubkey_characterization :
    (∀ s : String, Device.validate_pubkey s = .ok () ↔
      ∃ key, base64Decode s = some key ∧ key.length = KEY_LENGTH)
    ∧ (∀ s : String, Device.validate_pubkey s ≠ .ok () →
      Device.validate_pubkey s = .error (s ++ " is not a valid pubkey"))
    ∧ Device.validate_pubkey ("sejIy0WCLvOR7vWNchP9Elsayp3UTK/QCnEJmhsHKTc=")
        = .ok ()
    ∧ Device.validate_pubkey ("invalid_key")
        = .error ("invalid_key" ++ " is not a valid pubkey") := by
  refine ⟨fun s => ?_, fun s hne => ?_, by decide, by decide⟩
  · unfold Device.validate_pubkey
    cases hdec : base64Decode s with
    | none => simp
    | some key =>
      by_cases hlen : key.length = KEY_LENGTH
      · simp [hlen]
      · simp [hlen]
  · unfold Device.validate_pubkey at hne ⊢
    cases hdec : base64Decode s with
    | none => simp
    | some key =>
      by_cases hlen : key.length = KEY_LENGTH
      · rw [hdec] at hne
        simp [hlen] at hne
      · simp [hlen]

/-- Witness for C10 at a concrete input: the repository's invalid test
vector is rejected with the message naming it. -/
theorem validate_pubkey_characterization_witness :
    (Device.validate_pubkey ("invalid_key") ≠ .ok ())
    ∧ Device.validate_pubkey ("invalid_key")
        = .error ("invalid_key" ++ " is not a valid pubkey") :=
  ⟨by decide,
    validate_pubkey_characterization.2.1 ("invalid_key") (by decide)⟩

end Defguard
